import Mathlib

/-! Shallow embedding of the Brave Frontier scraper (files `main.py` and
`logger.py`).  HTML documents are abstracted into the results of the CSS
selectors the code runs: a listing row carries the text of its `span`, the
`href` of its `a[href^="bf"]` anchor (if any) and the `src` of the icon image
nested in that anchor (if any); a detail document carries, per field, the
text / `src` attribute of the unique element its selector would return
(`none` when the selector matches nothing).  Python string operations
(`lstrip`/`rstrip` with a character set, negative indexing, `int()` on a
character, `split`, `replace`) are modelled character-exactly; fallible
Python code is embedded in `Except PyErr`.  HTTP traffic is made explicit:
every function that would issue a `requests.get` records the requested URL
in its result, and the filesystem is an explicit state threaded through the
main loop. -/

set_option autoImplicit false

/-- Python exceptions that the scraper can actually raise while extracting:
`AttributeError` (method call on `None` returned by `select_one`),
`ValueError` (from `int()` on a non-digit), `IndexError` (negative index
past the start of a string). -/
inductive PyErr
  | attributeError
  | valueError
  | indexError
  deriving DecidableEq, Repr

/-- Membership of a character in a Python strip-set. -/
def charIn (cs : List Char) (c : Char) : Bool := cs.contains c

/-- Python `s.lstrip(chars)`: drop leading characters that belong to the
character SET `chars` (not the literal prefix). -/
def pyLstrip (cs : List Char) (s : String) : String :=
  String.mk (s.data.dropWhile (charIn cs))

/-- Python `s.rstrip(chars)`: drop trailing characters from the set. -/
def pyRstrip (cs : List Char) (s : String) : String :=
  String.mk ((s.data.reverse.dropWhile (charIn cs)).reverse)

/-- Python `s.strip()` (whitespace removed from both ends). -/
def pyStrip (s : String) : String :=
  String.mk
    (((s.data.dropWhile Char.isWhitespace).reverse.dropWhile
        Char.isWhitespace).reverse)

/-- The character set of the literal `"No."` passed to `lstrip` in
`main.py` lines 62 and 158. -/
def noDotChars : List Char := ['N', 'o', '.']

/-- Python `s[-5]`: the character five places from the end; raises
`IndexError` when the string is shorter than five characters
(`main.py` lines 87 and 99). -/
def pyIndexNeg5 (s : String) : Except PyErr Char :=
  if h : 5 ≤ s.data.length then
    .ok (s.data.get ⟨s.data.length - 5, by omega⟩)
  else .error .indexError

/-- Python `int(c)` on a one-character string: its numeric value for a
digit, `ValueError` otherwise (`main.py` line 89). -/
def pyInt (c : Char) : Except PyErr Nat :=
  if c.isDigit then .ok (c.toNat - 48) else .error .valueError

/-- The suffix of `s` after the last occurrence of the character `sep`
(the whole string when `sep` does not occur).  This is Python
`s.split(sep)[-1]` for a one-character separator. -/
def lastSegmentAfter (sep : Char) (s : String) : String :=
  String.mk ((s.data.reverse.takeWhile (fun c => c != sep)).reverse)

/-- Python `s.replace(".png", "")`: remove every left-to-right
non-overlapping occurrence of the fixed pattern `.png`
(`main.py` line 108). -/
def removeDotPngL : List Char → List Char
  | '.' :: 'p' :: 'n' :: 'g' :: rest => removeDotPngL rest
  | c :: rest => c :: removeDotPngL rest
  | [] => []

/-- String version of `removeDotPngL`. -/
def removeDotPng (s : String) : String := String.mk (removeDotPngL s.data)

/-- Python `pathlib.Path(url).name`: the final path segment
(`main.py` line 195). -/
def pathName (url : String) : String := lastSegmentAfter '/' url

/-- Whether `s` starts with the literal `pre`. -/
def pyStartsWith (s pre : String) : Bool := pre.data.isPrefixOf s.data

/-- Scheme and authority of an `http(s)` URL, e.g. `https://host` of
`https://host/a/b.php`: the characters before the first `:`, the literal
`://`, then the host up to the next `/`. -/
def schemeHost (base : String) : String :=
  let sch := base.data.takeWhile (fun c => c != ':')
  let rest := (base.data.dropWhile (fun c => c != ':')).drop 3
  String.mk (sch ++ [':', '/', '/'] ++ rest.takeWhile (fun c => c != '/'))

/-- The base URL up to and including its last `/`. -/
def dirUrl (base : String) : String :=
  String.mk ((base.data.reverse.dropWhile (fun c => c != '/')).reverse)

/-- Model of `urllib.parse.urljoin` for the three reference shapes the
scraper can meet: an absolute `http(s)` reference replaces the base, a
root-relative reference keeps the base's scheme and authority, and any
other relative reference is resolved against the base's directory. -/
def urljoin (base rel : String) : String :=
  if pyStartsWith rel "http://" || pyStartsWith rel "https://" then rel
  else if pyStartsWith rel "/" then schemeHost base ++ rel
  else dirUrl base ++ rel

/-- `main.py` line 15. -/
def BASE_URL : String := "https://www.bravefrontier.jp/library/bf1/bf1_list.php"

/-- `main.py` line 16 (`Path("./db/bf1_units/")`, rendered without the
trailing separator that `pathlib` normalises away). -/
def SAVE_PATH : String := "./db/bf1_units"

/-- The `UnitElements` enum of `main.py` lines 19-29. -/
inductive UnitElements
  | Fire
  | Water
  | Earth
  | Thunder
  | Light
  | Dark
  deriving DecidableEq, Repr

/-- The numeric value of each enum member. -/
def UnitElements.value : UnitElements → Nat
  | .Fire => 1
  | .Water => 2
  | .Earth => 3
  | .Thunder => 4
  | .Light => 5
  | .Dark => 6

/-- The Python `.name` attribute of each enum member. -/
def UnitElements.name : UnitElements → String
  | .Fire => "Fire"
  | .Water => "Water"
  | .Earth => "Earth"
  | .Thunder => "Thunder"
  | .Light => "Light"
  | .Dark => "Dark"

/-- All members, in declaration order. -/
def UnitElements.all : List UnitElements :=
  [.Fire, .Water, .Earth, .Thunder, .Light, .Dark]

/-- `UnitElements.has_value` (`main.py` lines 27-29). -/
def UnitElements.has_value (v : Nat) : Bool :=
  UnitElements.all.any (fun e => e.value == v)

/-- The enum lookup `UnitElements(v)`; `has_value v` guards it in the
source, and `ofValue v` is `some` exactly when `has_value v` is true. -/
def UnitElements.ofValue (v : Nat) : Option UnitElements :=
  UnitElements.all.find? (fun e => e.value == v)

/-- A parsed detail page, abstracted into the results of the selectors
run by `UnitPage` (`none` / `[]` when a selector matches nothing):
`idTag` is the text of `div.unit_detail_number > span.number`, `nameTag`
the text of `div.unit_detail_name > p.name`, `seriesTag` the text of
`div.unit_detail_number > span.series`, `attrTag` the `src` of the
`zokusei` image, `rankTag` the `src` of the rank image, `sexTag` the
`src` of the sex image, `animationTags` the `src`s of the
`div.unit_gif > img` elements in document order, and `textTag` the text
of `article.unit_text`. -/
structure DetailDoc where
  idTag : Option String
  nameTag : Option String
  seriesTag : Option String
  attrTag : Option String
  rankTag : Option String
  sexTag : Option String
  animationTags : List String
  textTag : Option String
  deriving DecidableEq, Repr

/-- The public state of a `UnitPage` object (`main.py` lines 32-49);
`_soup` is the document passed separately to each extractor.  Field
names and their `__init__` insertion order follow the source. -/
structure UnitPage where
  base_url : String
  uid : Option String
  icon : Option String
  name : Option String
  series : Option String
  «attribute» : Option String
  rank : Option String
  sex : Option String
  animations : List String
  unit_text : Option String
  deriving DecidableEq, Repr

/-- The field values `__init__` assigns before `gather_data` runs
(`main.py` lines 41-49). -/
def UnitPage.init (url : String) : UnitPage :=
  { base_url := url, uid := none, icon := none, name := none, series := none,
    «attribute» := none, rank := none, sex := none, animations := [],
    unit_text := none }

/-- Python truthiness of an optional string: `None` and `""` are falsy,
which is what the `if not self.field:` memo guards test. -/
def truthyS : Option String → Bool
  | none => false
  | some s => s != ""

/-- `UnitPage.get_unit_id` (`main.py` lines 57-64).  Each extractor
returns the updated record, the value the Python method returns, and the
number of selector queries it ran against the document (0 when the memo
guard short-circuits). -/
def get_unit_id (doc : DetailDoc) (u : UnitPage) :
    UnitPage × Option String × Nat :=
  if truthyS u.uid then (u, u.uid, 0)
  else
    let u' := match doc.idTag with
      | some t => { u with uid := some (pyLstrip noDotChars (pyStrip t)) }
      | none => u
    (u', u'.uid, 1)

/-- `UnitPage.get_unit_name` (`main.py` lines 66-72): the lookup is
unguarded, so an absent name element raises `AttributeError` on
`name_tag.text`. -/
def get_unit_name (doc : DetailDoc) (u : UnitPage) :
    Except PyErr (UnitPage × Option String × Nat) :=
  if truthyS u.name then .ok (u, u.name, 0)
  else
    match doc.nameTag with
    | none => .error .attributeError
    | some t =>
      let u' := { u with name := some (pyStrip t) }
      .ok (u', u'.name, 1)

/-- `UnitPage.get_unit_series` (`main.py` lines 74-81). -/
def get_unit_series (doc : DetailDoc) (u : UnitPage) :
    UnitPage × Option String × Nat :=
  if truthyS u.series then (u, u.series, 0)
  else
    let u' := match doc.seriesTag with
      | some t =>
          { u with series := some (pyRstrip ['≫'] (pyLstrip ['≪'] (pyStrip t))) }
      | none => u
    (u', u'.series, 1)

/-- `UnitPage.get_unit_attribute` (`main.py` lines 83-92): the lookup is
unguarded (`attr_tag.get` raises `AttributeError` on `None`);
`int(attribute)` raises `ValueError` on a non-digit; the enum lookup is
reached only under the `has_value` guard, rendered here as the match on
`UnitElements.ofValue`. -/
def get_unit_attribute (doc : DetailDoc) (u : UnitPage) :
    Except PyErr (UnitPage × Option String × Nat) :=
  if truthyS u.«attribute» then .ok (u, u.«attribute», 0)
  else
    match doc.attrTag with
    | none => .error .attributeError
    | some src =>
      match pyIndexNeg5 src with
      | .error e => .error e
      | .ok c =>
        match pyInt c with
        | .error e => .error e
        | .ok n =>
          let u' := match UnitElements.ofValue n with
            | some e => { u with «attribute» := some e.name }
            | none => u
          .ok (u', u'.«attribute», 1)

/-- `UnitPage.get_unit_rank` (`main.py` lines 94-101): guarded lookup,
but the `[-5]` index itself can still raise `IndexError`. -/
def get_unit_rank (doc : DetailDoc) (u : UnitPage) :
    Except PyErr (UnitPage × Option String × Nat) :=
  if truthyS u.rank then .ok (u, u.rank, 0)
  else
    match doc.rankTag with
    | none => .ok (u, u.rank, 1)
    | some src =>
      match pyIndexNeg5 src with
      | .error e => .error e
      | .ok c =>
        let u' := { u with rank := some (String.singleton c) }
        .ok (u', u'.rank, 1)

/-- `UnitPage.get_unit_sex` (`main.py` lines 103-110). -/
def get_unit_sex (doc : DetailDoc) (u : UnitPage) :
    UnitPage × Option String × Nat :=
  if truthyS u.sex then (u, u.sex, 0)
  else
    match doc.sexTag with
    | none => (u, u.sex, 1)
    | some src =>
      let u' := { u with
        sex := some (removeDotPng (lastSegmentAfter '_' src)) }
      (u', u'.sex, 1)

/-- `UnitPage.get_unit_animations` (`main.py` lines 113-121); the guard
is the source's `len == 3 or len != 0` test, and relative sources are
resolved against the detail page's own URL. -/
def get_unit_animations (doc : DetailDoc) (u : UnitPage) :
    UnitPage × List String × Nat :=
  if u.animations.length == 3 || u.animations.length != 0 then
    (u, u.animations, 0)
  else
    let u' := { u with animations := doc.animationTags.map (urljoin u.base_url) }
    (u', u'.animations, 1)

/-- `UnitPage.get_unit_text` (`main.py` lines 123-133). -/
def get_unit_text (doc : DetailDoc) (u : UnitPage) :
    UnitPage × Option String × Nat :=
  if truthyS u.unit_text then (u, u.unit_text, 0)
  else
    match doc.textTag with
    | some t => ({ u with unit_text := some t }, some t, 1)
    | none => (u, u.unit_text, 1)

/-- `UnitPage.gather_data` (`main.py` lines 135-144): runs every
extractor once, in declaration order; the first raised exception
propagates. -/
def gather_data (doc : DetailDoc) (u0 : UnitPage) : Except PyErr UnitPage :=
  let (u1, _, _) := get_unit_id doc u0
  match get_unit_name doc u1 with
  | .error e => .error e
  | .ok (u2, _, _) =>
    let (u3, _, _) := get_unit_series doc u2
    match get_unit_attribute doc u3 with
    | .error e => .error e
    | .ok (u4, _, _) =>
      match get_unit_rank doc u4 with
      | .error e => .error e
      | .ok (u5, _, _) =>
        let (u6, _, _) := get_unit_sex doc u5
        let (u7, _, _) := get_unit_animations doc u6
        let (u8, _, _) := get_unit_text doc u7
        .ok u8

/-- `UnitPage.__init__` (`main.py` lines 33-51) given the already-fetched
and parsed detail document for `url`. -/
def UnitPage.make (url : String) (doc : DetailDoc) : Except PyErr UnitPage :=
  gather_data doc (UnitPage.init url)

/-- JSON values appearing in the serialised record. -/
inductive JVal
  | null
  | jstr (s : String)
  | jarr (xs : List String)
  deriving DecidableEq, Repr

/-- `None` serialises to `null`, a string to itself. -/
def jopt : Option String → JVal
  | none => .null
  | some s => .jstr s

/-- `UnitPage.to_json` (`main.py` lines 53-55): every instance attribute
whose name does not start with an underscore, in `__dict__` insertion
order — which is the `__init__` assignment order with `_soup` filtered
out. -/
def UnitPage.to_json (u : UnitPage) : List (String × JVal) :=
  [("base_url", .jstr u.base_url), ("uid", jopt u.uid), ("icon", jopt u.icon),
   ("name", jopt u.name), ("series", jopt u.series),
   ("attribute", jopt u.«attribute»), ("rank", jopt u.rank),
   ("sex", jopt u.sex), ("animations", .jarr u.animations),
   ("unit_text", jopt u.unit_text)]

/-- Contents of a file written by the scraper: the serialised record, or
the raw body fetched from an asset URL. -/
inductive FileData
  | jsonData (kvs : List (String × JVal))
  | assetData (srcUrl : String)
  deriving DecidableEq, Repr

/-- The filesystem the scraper mutates: the set of directories and an
overlay list of files where a later write shadows an earlier one
(`open("w+")` truncates). -/
structure FS where
  dirs : List String
  files : List (String × FileData)
  deriving DecidableEq, Repr

/-- `Path.exists()` for a file. -/
def FS.hasFile (fs : FS) (p : String) : Bool :=
  fs.files.any (fun f => f.1 == p)

/-- `Path.mkdir(exist_ok=True)`: never an error, no change when the
directory already exists. -/
def FS.mkdir (fs : FS) (d : String) : FS :=
  if fs.dirs.contains d then fs else { fs with dirs := d :: fs.dirs }

/-- `open(p, "w+").write(d)`: the new entry shadows any earlier entry at
the same path. -/
def FS.write (fs : FS) (p : String) (d : FileData) : FS :=
  { fs with files := (p, d) :: fs.files }

/-- Read a file: the most recent write at that path. -/
def FS.read (fs : FS) (p : String) : Option FileData :=
  (fs.files.find? (fun f => f.1 == p)).map Prod.snd

/-- One `li` of `ul.unit_list`, abstracted into the results of the
selectors `main` runs on it (`main.py` lines 156-179): the text of its
first `span`, the `href` of its `a[href^="bf"]` anchor (if any), and the
`src` of the `img[src]` inside that anchor (if any). -/
structure ListingRow where
  spanText : String
  href : Option String
  iconSrc : Option String
  deriving DecidableEq, Repr

/-- The id `main` derives from a listing row (`main.py` line 158):
`text.lstrip("No.")`, with `lstrip`'s character-set semantics. -/
def listingUid (t : String) : String := pyLstrip noDotChars t

/-- The per-entry folder (`main.py` line 161). -/
def unitFolder (row : ListingRow) : String :=
  SAVE_PATH ++ "/" ++ listingUid row.spanText

/-- The record file path for a row (`main.py` lines 165 and 183). -/
def dataPath (row : ListingRow) : String := unitFolder row ++ "/data.json"

/-- The result of one loop iteration: the new filesystem, the URLs
requested during the iteration (in request order), and the in-memory
record built for the entry (`none` when the entry was skipped). -/
structure RowResult where
  fs : FS
  reqs : List String
  unit : Option UnitPage
  deriving DecidableEq, Repr

/-- One iteration of the `for unit_tag in ...` loop of `main`
(`main.py` lines 156-202): derive the id, create the folder, skip when
`data.json` exists, otherwise resolve the detail URL against `BASE_URL`,
build the `UnitPage` (one detail-page request), attach the raw icon
`src`, write `data.json`, create `assets`, and download icon and
animations (one request per non-null URL, saved under the URL's final
path segment).  `web` maps a detail URL to its parsed document. -/
def processRow (web : String → DetailDoc) (fs : FS) (row : ListingRow) :
    Except PyErr RowResult :=
  let folder := unitFolder row
  let fs1 := fs.mkdir folder
  if fs1.hasFile (folder ++ "/data.json") then
    .ok ⟨fs1, [], none⟩
  else
    match row.href with
    | none => .error .attributeError
    | some href =>
      let link_to_profile := urljoin BASE_URL href
      match UnitPage.make link_to_profile (web link_to_profile) with
      | .error e => .error e
      | .ok unit0 =>
        let unit := match row.iconSrc with
          | some src => { unit0 with icon := some src }
          | none => unit0
        let fs2 := fs1.write (folder ++ "/data.json") (.jsonData unit.to_json)
        let fs3 := fs2.mkdir (folder ++ "/assets")
        let url_list :=
          (match unit.icon with | some u => [u] | none => []) ++ unit.animations
        let fs4 := url_list.foldl
          (fun a url =>
            a.write (folder ++ "/assets/" ++ pathName url) (.assetData url))
          fs3
        .ok ⟨fs4, link_to_profile :: url_list, some unit⟩

/-- The listing loop over the remaining rows, accumulating the
filesystem and the requested URLs. -/
def runRows (web : String → DetailDoc) :
    List ListingRow → FS × List String → Except PyErr (FS × List String)
  | [], acc => .ok acc
  | row :: rest, acc =>
    match processRow web acc.1 row with
    | .error e => .error e
    | .ok r => runRows web rest (r.fs, acc.2 ++ r.reqs)

/-- `main` (`main.py` lines 147-205) plus the import-time
`SAVE_PATH.mkdir` (line 17): fetch the listing page (the first request),
then process every row in document order. -/
def runMain (web : String → DetailDoc) (rows : List ListingRow) (fs : FS) :
    Except PyErr (FS × List String) :=
  runRows web rows (fs.mkdir SAVE_PATH, [BASE_URL])

/-- A Python `logging.Logger` as `get_logger` configures it: its level
and the levels of its attached handlers. -/
structure PyLogger where
  level : Nat
  handlers : List Nat
  deriving DecidableEq, Repr

/-- The `logging` module registry: one shared logger per name.  A name
not yet in the registry denotes a fresh logger with level `NOTSET` (0)
and no handlers. -/
def LogRegistry := List (String × PyLogger)

/-- `logging.getLogger(name)`: the shared logger for `name`. -/
def getLoggerIn (reg : LogRegistry) (nm : String) : PyLogger :=
  ((reg.find? (fun e => e.1 == nm)).map Prod.snd).getD ⟨0, []⟩

/-- Store an updated logger back under its name. -/
def setLoggerIn (reg : LogRegistry) (nm : String) (lg : PyLogger) : LogRegistry :=
  (nm, lg) :: reg.filter (fun e => e.1 != nm)

/-- `logger.get_logger` (`logger.py` lines 5-28): fetch the shared
logger, set its level to INFO (20), unconditionally append one fresh
`StreamHandler` at level INFO, and return the logger. -/
def get_logger (reg : LogRegistry) (nm : String) : LogRegistry × PyLogger :=
  let lg := getLoggerIn reg nm
  let lg' : PyLogger := ⟨20, lg.handlers ++ [20]⟩
  (setLoggerIn reg nm lg', lg')

/-- `n` successive calls of `get_logger` with the same name. -/
def callGetLogger : Nat → LogRegistry → String → LogRegistry
  | 0, reg, _ => reg
  | n + 1, reg, nm => callGetLogger n (get_logger reg nm).1 nm

/-- How many times one log event at level `lvl` is emitted by a logger:
once per handler whose level passes, provided the logger's own level
passes (propagation reaches no other handler in this program). -/
def emitCount (lg : PyLogger) (lvl : Nat) : Nat :=
  if lg.level ≤ lvl then (lg.handlers.filter (fun h => h ≤ lvl)).length else 0

/-! Concrete fixtures used by counterexamples and witnesses. -/

/-- The empty filesystem of a fresh storage root. -/
def fs0 : FS := ⟨[], []⟩

/-- A detail document on which every selector finds nothing. -/
def emptyDoc : DetailDoc :=
  { idTag := none, nameTag := none, seriesTag := none, attrTag := none,
    rankTag := none, sexTag := none, animationTags := [], textTag := none }

/-- A well-formed detail document for unit 001. -/
def docC1 : DetailDoc :=
  { idTag := some "No.001", nameTag := some " Alpha ", seriesTag := none,
    attrTag := some "attr_1.png", rankTag := some "rank_2.png",
    sexTag := some "icon_m.png", animationTags := [], textTag := some "Hello" }

/-- The listing row for unit 001, with an absolute icon source. -/
def rowC1 : ListingRow :=
  { spanText := "No.001", href := some "bf001.php",
    iconSrc := some "https://x.example/i/001.png" }

/-- Read a file out of a row result (`none` when the iteration raised). -/
def readData (res : Except PyErr RowResult) (p : String) : Option FileData :=
  match res with
  | .ok r => r.fs.read p
  | .error _ => none

/-- The unit record a row result carries. -/
def resUnit (res : Except PyErr RowResult) : Option UnitPage :=
  match res with
  | .ok r => r.unit
  | .error _ => none

/-- The requests a row result records. -/
def resReqs (res : Except PyErr RowResult) : List String :=
  match res with
  | .ok r => r.reqs
  | .error _ => []

/-- The key list of a written JSON record. -/
def fileKeys : FileData → List String
  | .jsonData kvs => kvs.map Prod.fst
  | .assetData _ => []

/-- One field of a written JSON record. -/
def jsonField (res : Except PyErr RowResult) (p k : String) : Option JVal :=
  match readData res p with
  | some (.jsonData kvs) => kvs.lookup k
  | _ => none

/-- The key set claim C1 asserts for the record file. -/
def claimedKeysC1 : List String :=
  ["id", "icon", "name", "series", "attribute", "rank", "sex", "animations",
   "unit_text"]

/-- The key list the code actually writes: `__init__` insertion order with
`_soup` dropped. -/
def actualKeys : List String :=
  ["base_url", "uid", "icon", "name", "series", "attribute", "rank", "sex",
   "animations", "unit_text"]

/-- Claim C1 is false on the code: the record file written for a concrete
entry has the ten keys `base_url, uid, icon, name, series, attribute, rank,
sex, animations, unit_text` — it contains `base_url`, which the claimed key
set lacks, and stores the identifier under `uid`, with no `id` key at
all. -/
theorem C1_counterexample :
    (readData (processRow (fun _ => docC1) fs0 rowC1)
        (SAVE_PATH ++ "/001/data.json")).map fileKeys = some actualKeys ∧
    actualKeys ≠ claimedKeysC1 ∧
    "id" ∉ actualKeys ∧
    "base_url" ∈ actualKeys ∧
    "base_url" ∉ claimedKeysC1 := by
  refine ⟨rfl, by decide, by decide, by decide, by decide⟩

/-- Claim C1, amended: every serialised record is a JSON object whose key
list is exactly `base_url, uid, icon, name, series, attribute, rank, sex,
animations, unit_text` (in that order), and the unit's identifier is stored
under the key `uid` (there is no `id` key). -/
theorem C1_amended (u : UnitPage) :
    u.to_json.map Prod.fst = actualKeys ∧
    u.to_json.lookup "uid" = some (jopt u.uid) ∧
    u.to_json.lookup "id" = none :=
  ⟨rfl, rfl, rfl⟩

/-- A detail document whose attribute icon has a non-numeric character at
position 5 from the end. -/
def docC3 : DetailDoc :=
  { idTag := none, nameTag := some "C", seriesTag := none,
    attrTag := some "at_X.png", rankTag := none, sexTag := none,
    animationTags := [], textTag := none }

/-- Claim C3 is false on the code: with a non-numeric character at position
5 from the end of the attribute icon source (`at_X.png`), attribute
extraction does not return null — `int()` raises `ValueError`, and the whole
record build aborts with it. -/
theorem C3_counterexample :
    get_unit_attribute docC3 (UnitPage.init "u") = .error .valueError ∧
    UnitPage.make "u" docC3 = .error .valueError :=
  ⟨rfl, rfl⟩

/-- Claim C3, amended: when the attribute field is still unset and the icon
source has a digit at position 5 from the end, extraction stores the enum
name of that digit's value when some member has it (1 Fire … 6 Dark, via
`UnitElements.ofValue`) and leaves the attribute null for a digit outside
1–6, raising nothing; for a NON-numeric character at that position the
`int()` conversion raises `ValueError` instead of returning null. -/
theorem C3_amended (doc : DetailDoc) (u : UnitPage) (src : String) (c : Char)
    (hattr : u.«attribute» = none) (hsrc : doc.attrTag = some src)
    (hc : pyIndexNeg5 src = .ok c) :
    (∀ e : UnitElements, c.isDigit = true →
        UnitElements.ofValue (c.toNat - 48) = some e →
        get_unit_attribute doc u =
          .ok ({ u with «attribute» := some e.name }, some e.name, 1)) ∧
    (c.isDigit = true → UnitElements.ofValue (c.toNat - 48) = none →
        get_unit_attribute doc u = .ok (u, none, 1)) ∧
    (c.isDigit = false → get_unit_attribute doc u = .error .valueError) := by
  have htr : truthyS u.«attribute» = false := by rw [hattr]; rfl
  refine ⟨?_, ?_, ?_⟩
  · intro e hdig hofv
    simp [get_unit_attribute, htr, hsrc, hc, pyInt, hdig, hofv]
  · intro hdig hofv
    simp [get_unit_attribute, htr, hsrc, hc, pyInt, hdig, hofv, hattr, truthyS]
  · intro hdig
    simp [get_unit_attribute, htr, hsrc, hc, pyInt, hdig]

/-- A detail document whose attribute icon digit is 3 (Earth). -/
def docC3w : DetailDoc :=
  { idTag := none, nameTag := some "C", seriesTag := none,
    attrTag := some "zok_3.png", rankTag := none, sexTag := none,
    animationTags := [], textTag := none }

/-- Witness for `C3_amended` at the concrete source `zok_3.png`: digit 3
maps to `Earth`. -/
theorem C3_witness :
    get_unit_attribute docC3w (UnitPage.init "u") =
      .ok ({ UnitPage.init "u" with «attribute» := some "Earth" },
           some "Earth", 1) :=
  (C3_amended docC3w (UnitPage.init "u") "zok_3.png" '3' rfl rfl rfl).1
    UnitElements.Earth rfl rfl

/-- A detail document with a name element but no attribute icon. -/
def docC4 : DetailDoc :=
  { idTag := some "No.9", nameTag := some "D", seriesTag := none,
    attrTag := none, rankTag := none, sexTag := none, animationTags := [],
    textTag := none }

/-- Claim C4 is false on the code: the attribute extractor is listed among
the fields that degrade to null when their selector matches nothing, but
`get_unit_attribute` calls `.get("src")` on the unguarded `select_one`
result, so a document without the attribute icon raises `AttributeError`
and aborts the whole record build. -/
theorem C4_counterexample :
    get_unit_attribute docC4 (UnitPage.init "u") = .error .attributeError ∧
    UnitPage.make "u" docC4 = .error .attributeError :=
  ⟨rfl, rfl⟩

/-- Claim C4, amended: on a fresh record, the extractors for id, series,
rank, sex, animations and description leave their field null/empty and do
not raise when their selector finds zero elements, but BOTH the name
extractor AND the attribute extractor raise `AttributeError` when their
element is absent. -/
theorem C4_amended (url : String) (doc : DetailDoc) :
    (doc.idTag = none →
        get_unit_id doc (UnitPage.init url) = (UnitPage.init url, none, 1)) ∧
    (doc.seriesTag = none →
        get_unit_series doc (UnitPage.init url) = (UnitPage.init url, none, 1)) ∧
    (doc.rankTag = none →
        get_unit_rank doc (UnitPage.init url) = .ok (UnitPage.init url, none, 1)) ∧
    (doc.sexTag = none →
        get_unit_sex doc (UnitPage.init url) = (UnitPage.init url, none, 1)) ∧
    (doc.animationTags = [] →
        get_unit_animations doc (UnitPage.init url) = (UnitPage.init url, [], 1)) ∧
    (doc.textTag = none →
        get_unit_text doc (UnitPage.init url) = (UnitPage.init url, none, 1)) ∧
    (doc.nameTag = none →
        get_unit_name doc (UnitPage.init url) = .error .attributeError) ∧
    (doc.attrTag = none →
        get_unit_attribute doc (UnitPage.init url) = .error .attributeError) := by
  refine ⟨?_, ?_, ?_, ?_, ?_, ?_, ?_, ?_⟩ <;> intro h
  · simp [get_unit_id, truthyS, UnitPage.init, h]
  · simp [get_unit_series, truthyS, UnitPage.init, h]
  · simp [get_unit_rank, truthyS, UnitPage.init, h]
  · simp [get_unit_sex, truthyS, UnitPage.init, h]
  · simp [get_unit_animations, truthyS, UnitPage.init, h]
  · simp [get_unit_text, truthyS, UnitPage.init, h]
  · simp [get_unit_name, truthyS, UnitPage.init, h]
  · simp [get_unit_attribute, truthyS, UnitPage.init, h]

/-- Witness for `C4_amended` on the document where every selector finds
nothing: the six optional extractors return null/empty without raising and
the two unguarded ones raise. -/
theorem C4_witness :
    get_unit_id emptyDoc (UnitPage.init "u") = (UnitPage.init "u", none, 1) ∧
    get_unit_series emptyDoc (UnitPage.init "u") = (UnitPage.init "u", none, 1) ∧
    get_unit_rank emptyDoc (UnitPage.init "u") = .ok (UnitPage.init "u", none, 1) ∧
    get_unit_sex emptyDoc (UnitPage.init "u") = (UnitPage.init "u", none, 1) ∧
    get_unit_animations emptyDoc (UnitPage.init "u") = (UnitPage.init "u", [], 1) ∧
    get_unit_text emptyDoc (UnitPage.init "u") = (UnitPage.init "u", none, 1) ∧
    get_unit_name emptyDoc (UnitPage.init "u") = .error .attributeError ∧
    get_unit_attribute emptyDoc (UnitPage.init "u") = .error .attributeError :=
  ⟨(C4_amended "u" emptyDoc).1 rfl, (C4_amended "u" emptyDoc).2.1 rfl,
   (C4_amended "u" emptyDoc).2.2.1 rfl, (C4_amended "u" emptyDoc).2.2.2.1 rfl,
   (C4_amended "u" emptyDoc).2.2.2.2.1 rfl,
   (C4_amended "u" emptyDoc).2.2.2.2.2.1 rfl,
   (C4_amended "u" emptyDoc).2.2.2.2.2.2.1 rfl,
   (C4_amended "u" emptyDoc).2.2.2.2.2.2.2 rfl⟩

/-- Claim C5 is false on the code: `lstrip("No.")` strips the character SET
`N`/`o`/`.`, not one literal prefix.  The label `oo.7` does not begin with
`No.`, yet the extracted id is `7`, not the unchanged text; and `No..123`
loses both dots instead of one literal `No.`. -/
theorem C5_counterexample :
    listingUid "oo.7" = "7" ∧ "oo.7".data.take 3 ≠ "No.".data ∧
    "7" ≠ "oo.7" ∧
    listingUid "No..123" = "123" ∧ "123" ≠ ".123" := by
  refine ⟨rfl, by decide, by decide, rfl, by decide⟩

/-- Claim C5, amended: the extracted entry id is the label text with ALL
leading characters drawn from the set N, o, . removed (Python `lstrip`
character-set semantics).  This coincides with removing one literal `No.`
prefix — and with returning text unchanged — exactly when the remainder
(resp. the text) does not itself start with one of those three
characters. -/
theorem C5_amended (r : String)
    (h : ∀ c, r.data.head? = some c → charIn noDotChars c = false) :
    listingUid ("No." ++ r) = r ∧ listingUid r = r := by
  obtain ⟨l⟩ := r
  have hdrop : List.dropWhile (charIn noDotChars) l = l := by
    cases l with
    | nil => rfl
    | cons c cs =>
      have hc : charIn noDotChars c = false := h c rfl
      simp [List.dropWhile_cons, hc]
  have hN : charIn noDotChars 'N' = true := rfl
  have hO : charIn noDotChars 'o' = true := rfl
  have hD : charIn noDotChars '.' = true := rfl
  constructor
  · have hdata : ("No." ++ String.mk l).data = 'N' :: 'o' :: '.' :: l := rfl
    show String.mk (List.dropWhile (charIn noDotChars)
        (("No." ++ String.mk l).data)) = String.mk l
    rw [hdata]
    simp [List.dropWhile_cons, hN, hO, hD, hdrop]
  · show String.mk (List.dropWhile (charIn noDotChars) l) = String.mk l
    rw [hdrop]

/-- Witness for `C5_amended` at the digit-leading remainder `123`:
`No.123` yields `123`, and `123` alone is left unchanged. -/
theorem C5_witness :
    listingUid ("No." ++ "123") = "123" ∧ listingUid "123" = "123" :=
  C5_amended "123" (fun c hc => by
    have hc' : some '1' = some c := hc
    injection hc' with h1
    subst h1
    decide)

/-- A detail document whose id label strips to the empty string. -/
def docC8 : DetailDoc :=
  { idTag := some "No.", nameTag := some "E", seriesTag := none,
    attrTag := some "zok_1.png", rankTag := none, sexTag := none,
    animationTags := [], textTag := none }

/-- The record after one id extraction over `docC8`: the uid field is
populated with the (falsy) empty string. -/
def uC8 : UnitPage := (get_unit_id docC8 (UnitPage.init "u")).1

/-- Claim C8 is false on the code: the memo guards test Python truthiness,
not presence.  After extracting from a label that strips to `""`, the uid
field is populated (`some ""`), yet re-invoking the extractor runs the
selector against the document again (one query, not the claimed zero). -/
theorem C8_counterexample :
    uC8.uid = some "" ∧ (get_unit_id docC8 uC8).2.2 = 1 :=
  ⟨rfl, rfl⟩

/-- Claim C8, amended: re-invoking an extractor when its field holds a
TRUTHY value (non-null and non-empty — for animations, a non-empty list)
returns the cached value, runs zero selector queries and leaves the record
unchanged; a field populated with a falsy value (empty string or empty
list) is re-extracted on each call. -/
theorem C8_amended (doc : DetailDoc) (u : UnitPage) :
    (truthyS u.uid = true → get_unit_id doc u = (u, u.uid, 0)) ∧
    (truthyS u.name = true → get_unit_name doc u = .ok (u, u.name, 0)) ∧
    (truthyS u.series = true → get_unit_series doc u = (u, u.series, 0)) ∧
    (truthyS u.«attribute» = true →
        get_unit_attribute doc u = .ok (u, u.«attribute», 0)) ∧
    (truthyS u.rank = true → get_unit_rank doc u = .ok (u, u.rank, 0)) ∧
    (truthyS u.sex = true → get_unit_sex doc u = (u, u.sex, 0)) ∧
    (u.animations ≠ [] → get_unit_animations doc u = (u, u.animations, 0)) ∧
    (truthyS u.unit_text = true → get_unit_text doc u = (u, u.unit_text, 0)) := by
  refine ⟨?_, ?_, ?_, ?_, ?_, ?_, ?_, ?_⟩ <;> intro h
  · simp [get_unit_id, h]
  · simp [get_unit_name, h]
  · simp [get_unit_series, h]
  · simp [get_unit_attribute, h]
  · simp [get_unit_rank, h]
  · simp [get_unit_sex, h]
  · have hlen : u.animations.length ≠ 0 := by
      simpa [List.length_eq_zero] using h
    simp [get_unit_animations, hlen]
  · simp [get_unit_text, h]

/-- A record with every field populated with a truthy value. -/
def uFull : UnitPage :=
  { base_url := "u", uid := some "1", icon := some "i", name := some "n",
    series := some "s", «attribute» := some "Fire", rank := some "2",
    sex := some "m", animations := ["a"], unit_text := some "t" }

/-- Witness for `C8_amended` on a fully populated record: every extractor
returns its cached value with zero document queries. -/
theorem C8_witness :
    get_unit_id emptyDoc uFull = (uFull, uFull.uid, 0) ∧
    get_unit_name emptyDoc uFull = .ok (uFull, uFull.name, 0) ∧
    get_unit_series emptyDoc uFull = (uFull, uFull.series, 0) ∧
    get_unit_attribute emptyDoc uFull = .ok (uFull, uFull.«attribute», 0) ∧
    get_unit_rank emptyDoc uFull = .ok (uFull, uFull.rank, 0) ∧
    get_unit_sex emptyDoc uFull = (uFull, uFull.sex, 0) ∧
    get_unit_animations emptyDoc uFull = (uFull, uFull.animations, 0) ∧
    get_unit_text emptyDoc uFull = (uFull, uFull.unit_text, 0) :=
  ⟨(C8_amended emptyDoc uFull).1 rfl, (C8_amended emptyDoc uFull).2.1 rfl,
   (C8_amended emptyDoc uFull).2.2.1 rfl,
   (C8_amended emptyDoc uFull).2.2.2.1 rfl,
   (C8_amended emptyDoc uFull).2.2.2.2.1 rfl,
   (C8_amended emptyDoc uFull).2.2.2.2.2.1 rfl,
   (C8_amended emptyDoc uFull).2.2.2.2.2.2.1 (by decide),
   (C8_amended emptyDoc uFull).2.2.2.2.2.2.2 rfl⟩

/-- A listing row whose icon source is relative, with its detail
document. -/
def rowC2 : ListingRow :=
  { spanText := "No.007", href := some "bf007.php",
    iconSrc := some "img/007.png" }

/-- Detail document for unit 007, with one relative animation source. -/
def docC2 : DetailDoc :=
  { idTag := some "No.007", nameTag := some "Beta", seriesTag := none,
    attrTag := some "zok_2.png", rankTag := none, sexTag := none,
    animationTags := ["anim/007_1.gif"], textTag := none }

/-- Processing the 007 row against an empty storage root. -/
def resC2 : Except PyErr RowResult := processRow (fun _ => docC2) fs0 rowC2

/-- The row result of `resC2`. -/
def rC2 : RowResult :=
  match resC2 with
  | .ok r => r
  | .error _ => ⟨fs0, [], none⟩

/-- The record built by `resC2`. -/
def uC2 : UnitPage :=
  match resUnit resC2 with
  | some u => u
  | none => UnitPage.init ""

/-- Claim C2 is false on the code: the detail URL is resolved against the
listing URL, but the icon URL is not — `main` stores the row's raw `src`
(`img/007.png`) on the record, persists it, and later requests exactly that
raw value; the resolved absolute URL is never requested.  (The animation
sources, by contrast, are resolved — against the detail page's URL.) -/
theorem C2_counterexample :
    (resUnit resC2).map UnitPage.icon = some (some "img/007.png") ∧
    "img/007.png" ∈ resReqs resC2 ∧
    urljoin BASE_URL "img/007.png"
      = "https://www.bravefrontier.jp/library/bf1/img/007.png" ∧
    "https://www.bravefrontier.jp/library/bf1/img/007.png" ∉ resReqs resC2 ∧
    jsonField resC2 (SAVE_PATH ++ "/007/data.json") "icon"
      = some (.jstr "img/007.png") := by
  refine ⟨rfl, by decide, rfl, by decide, rfl⟩

/-- Claim C2, amended: for a processed (non-skipped) row, the detail-page
URL — the first request of the iteration — is the row's relative link
resolved against the listing page's URL, but the icon URL stored on the
record and later requested as an asset is the row's raw `src` value,
unresolved. -/
theorem C2_amended (web : String → DetailDoc) (fs : FS) (row : ListingRow)
    (r : RowResult) (href src : String) (u : UnitPage)
    (hok : processRow web fs row = .ok r) (hhref : row.href = some href)
    (hicon : row.iconSrc = some src) (hunit : r.unit = some u) :
    r.reqs.head? = some (urljoin BASE_URL href) ∧ u.icon = some src ∧
    src ∈ r.reqs := by
  unfold processRow at hok
  rw [hhref, hicon] at hok
  dsimp only at hok
  split at hok
  · injection hok with h'
    rw [← h'] at hunit
    exact absurd hunit (by simp)
  · split at hok
    next e heq2 => exact Except.noConfusion hok
    next unit0 heq2 =>
      injection hok with h'
      rw [← h'] at hunit ⊢
      have h5 : some { unit0 with icon := some src } = some u := hunit
      injection h5 with h6
      rw [← h6]
      refine ⟨rfl, rfl, ?_⟩
      simp

/-- Witness for `C2_amended` on the 007 row. -/
theorem C2_witness :
    rC2.reqs.head? = some (urljoin BASE_URL "bf007.php") ∧
    uC2.icon = some "img/007.png" ∧ "img/007.png" ∈ rC2.reqs :=
  C2_amended (fun _ => docC2) fs0 rowC2 rC2 "bf007.php" "img/007.png" uC2
    rfl rfl rfl rfl

/-- The id that extraction derives from a detail document on a fresh
record: the number label stripped and `lstrip`-ed, when the label
exists. -/
def detailUid (doc : DetailDoc) : Option String :=
  doc.idTag.map (fun t => pyLstrip noDotChars (pyStrip t))

/-- On the fresh record, `get_unit_id` stores exactly `detailUid`. -/
theorem get_unit_id_init_uid (doc : DetailDoc) (url : String) :
    (get_unit_id doc (UnitPage.init url)).1.uid = detailUid doc := by
  unfold get_unit_id
  split
  next h => simp [UnitPage.init, truthyS] at h
  next =>
    rcases hid : doc.idTag with _ | t <;>
      simp [detailUid, hid, UnitPage.init]

/-- `get_unit_series` never touches the uid field. -/
theorem uid_series (doc : DetailDoc) (u : UnitPage) :
    (get_unit_series doc u).1.uid = u.uid := by
  unfold get_unit_series
  split
  · rfl
  · cases doc.seriesTag <;> rfl

/-- `get_unit_sex` never touches the uid field. -/
theorem uid_sex (doc : DetailDoc) (u : UnitPage) :
    (get_unit_sex doc u).1.uid = u.uid := by
  unfold get_unit_sex
  split
  · rfl
  · cases doc.sexTag <;> rfl

/-- `get_unit_animations` never touches the uid field. -/
theorem uid_animations (doc : DetailDoc) (u : UnitPage) :
    (get_unit_animations doc u).1.uid = u.uid := by
  unfold get_unit_animations
  split <;> rfl

/-- `get_unit_text` never touches the uid field. -/
theorem uid_text (doc : DetailDoc) (u : UnitPage) :
    (get_unit_text doc u).1.uid = u.uid := by
  unfold get_unit_text
  split
  · rfl
  · cases doc.textTag <;> rfl

/-- `get_unit_name` never touches the uid field. -/
theorem uid_name (doc : DetailDoc) (u : UnitPage)
    (t : UnitPage × Option String × Nat) (h : get_unit_name doc u = .ok t) :
    t.1.uid = u.uid := by
  unfold get_unit_name at h
  split at h
  · injection h with h'
    rw [← h']
  · split at h
    · exact Except.noConfusion h
    · injection h with h'
      rw [← h']

/-- `get_unit_attribute` never touches the uid field. -/
theorem uid_attribute (doc : DetailDoc) (u : UnitPage)
    (t : UnitPage × Option String × Nat)
    (h : get_unit_attribute doc u = .ok t) : t.1.uid = u.uid := by
  unfold get_unit_attribute at h
  split at h
  · injection h with h'
    rw [← h']
  · split at h
    · exact Except.noConfusion h
    · split at h
      · exact Except.noConfusion h
      · split at h
        · exact Except.noConfusion h
        · split at h
          · injection h with h'
            rw [← h']
          · injection h with h'
            rw [← h']

/-- `get_unit_rank` never touches the uid field. -/
theorem uid_rank (doc : DetailDoc) (u : UnitPage)
    (t : UnitPage × Option String × Nat) (h : get_unit_rank doc u = .ok t) :
    t.1.uid = u.uid := by
  unfold get_unit_rank at h
  split at h
  · injection h with h'
    rw [← h']
  · split at h
    · injection h with h'
      rw [← h']
    · split at h
      · exact Except.noConfusion h
      · injection h with h'
        rw [← h']

/-- A successfully built record carries the uid extracted from the detail
document — no later extractor overwrites it. -/
theorem make_uid (url : String) (doc : DetailDoc) (u0 : UnitPage)
    (h : UnitPage.make url doc = .ok u0) : u0.uid = detailUid doc := by
  unfold UnitPage.make gather_data at h
  rcases hg : get_unit_id doc (UnitPage.init url) with ⟨u1, v1, n1⟩
  rw [hg] at h
  dsimp only at h
  rcases hn : get_unit_name doc u1 with e | ⟨u2, v2, n2⟩ <;> rw [hn] at h
  · exact Except.noConfusion h
  dsimp only at h
  rcases hs : get_unit_series doc u2 with ⟨u3, v3, n3⟩
  rw [hs] at h
  dsimp only at h
  rcases ha : get_unit_attribute doc u3 with e | ⟨u4, v4, n4⟩ <;> rw [ha] at h
  · exact Except.noConfusion h
  dsimp only at h
  rcases hr : get_unit_rank doc u4 with e | ⟨u5, v5, n5⟩ <;> rw [hr] at h
  · exact Except.noConfusion h
  dsimp only at h
  rcases hx : get_unit_sex doc u5 with ⟨u6, v6, n6⟩
  rw [hx] at h
  dsimp only at h
  rcases hm : get_unit_animations doc u6 with ⟨u7, v7, n7⟩
  rw [hm] at h
  dsimp only at h
  rcases ht : get_unit_text doc u7 with ⟨u8, v8, n8⟩
  rw [ht] at h
  dsimp only at h
  injection h with h'
  subst h'
  have e8 : u8.uid = u7.uid := by
    have := uid_text doc u7
    rw [ht] at this
    exact this
  have e7 : u7.uid = u6.uid := by
    have := uid_animations doc u6
    rw [hm] at this
    exact this
  have e6 : u6.uid = u5.uid := by
    have := uid_sex doc u5
    rw [hx] at this
    exact this
  have e5 : u5.uid = u4.uid := uid_rank doc u4 (u5, v5, n5) hr
  have e4 : u4.uid = u3.uid := uid_attribute doc u3 (u4, v4, n4) ha
  have e3 : u3.uid = u2.uid := by
    have := uid_series doc u2
    rw [hs] at this
    exact this
  have e2 : u2.uid = u1.uid := uid_name doc u1 (u2, v2, n2) hn
  have e1 : u1.uid = detailUid doc := by
    have := get_unit_id_init_uid doc url
    rw [hg] at this
    exact this
  rw [e8, e7, e6, e5, e4, e3, e2, e1]

/-- An asset path never collides with the record file path. -/
theorem assets_ne_data (folder x : String) :
    folder ++ "/assets/" ++ x ≠ folder ++ "/data.json" := by
  obtain ⟨lf⟩ := folder
  obtain ⟨lx⟩ := x
  intro h
  have h1 : (lf ++ ['/', 'a', 's', 's', 'e', 't', 's', '/']) ++ lx
      = lf ++ ['/', 'd', 'a', 't', 'a', '.', 'j', 's', 'o', 'n'] :=
    congrArg String.data h
  rw [List.append_assoc] at h1
  have h2 := List.append_cancel_left h1
  have h3 : '/' :: 'a' :: (['s', 's', 'e', 't', 's', '/'] ++ lx)
      = '/' :: 'd' :: ['a', 't', 'a', '.', 'j', 's', 'o', 'n'] := h2
  injection h3 with h4 h5
  injection h5 with h6 h7
  exact absurd h6 (by decide)

/-- Reading back the path just written yields the written data. -/
theorem FS.read_write_self (fs : FS) (p : String) (d : FileData) :
    (fs.write p d).read p = some d := by
  simp [FS.write, FS.read, List.find?]

/-- Writing elsewhere does not change what a path reads as. -/
theorem FS.read_write_ne (fs : FS) (p q : String) (d : FileData)
    (h : p ≠ q) : (fs.write p d).read q = fs.read q := by
  have hb : (p == q) = false := beq_eq_false_iff_ne.mpr h
  simp [FS.write, FS.read, List.find?, hb]

/-- Creating a directory does not change any file. -/
theorem FS.read_mkdir (fs : FS) (d p : String) :
    (fs.mkdir d).read p = fs.read p := by
  unfold FS.mkdir
  split <;> rfl

/-- The asset-download loop never overwrites the record file. -/
theorem read_assets_fold (folder : String) (urls : List String) (fs : FS) :
    (urls.foldl
        (fun a url =>
          a.write (folder ++ "/assets/" ++ pathName url) (.assetData url))
        fs).read (folder ++ "/data.json")
      = fs.read (folder ++ "/data.json") := by
  induction urls generalizing fs with
  | nil => rfl
  | cons x xs ih =>
    rw [List.foldl_cons, ih, FS.read_write_ne]
    exact assets_ne_data folder (pathName x)

/-- A listing row whose label differs from the id on its detail page. -/
def rowC6 : ListingRow :=
  { spanText := "No.123", href := some "bf123.php", iconSrc := none }

/-- Detail document whose own number label is 456, not 123. -/
def docC6 : DetailDoc :=
  { idTag := some "No.456", nameTag := some "Zeta", seriesTag := none,
    attrTag := some "zk_5.png", rankTag := none, sexTag := none,
    animationTags := [], textTag := none }

/-- Processing the divergent row against an empty storage root. -/
def resC6 : Except PyErr RowResult := processRow (fun _ => docC6) fs0 rowC6

/-- The row result of `resC6`. -/
def rC6 : RowResult :=
  match resC6 with
  | .ok r => r
  | .error _ => ⟨fs0, [], none⟩

/-- The record built by `resC6`. -/
def uC6 : UnitPage :=
  match resUnit resC6 with
  | some u => u
  | none => UnitPage.init ""

/-- Claim C6 is false on the code: `main` derives id 123 from the listing
row and uses it for the folder name, but never assigns it to the record —
the persisted `uid` is the one re-derived from the detail page (456 here),
so the detail-page id, not the listing id, is what gets persisted. -/
theorem C6_counterexample :
    listingUid rowC6.spanText = "123" ∧
    (resUnit resC6).map UnitPage.uid = some (some "456") ∧
    jsonField resC6 (SAVE_PATH ++ "/123/data.json") "uid"
      = some (.jstr "456") ∧
    "456" ≠ "123" := by
  refine ⟨rfl, rfl, rfl, by decide⟩

/-- Claim C6, amended: the id persisted in the record file is the one
re-derived from the entry's detail page; the listing-derived id governs
only the folder name and the skip check.  For every processed row, the
record's uid equals `detailUid` of the fetched detail document, and the
file at the listing-named path holds exactly that record's
serialisation. -/
theorem C6_amended (web : String → DetailDoc) (fs : FS) (row : ListingRow)
    (r : RowResult) (u : UnitPage) (href : String)
    (hok : processRow web fs row = .ok r) (hunit : r.unit = some u)
    (hhref : row.href = some href) :
    u.uid = detailUid (web (urljoin BASE_URL href)) ∧
    r.fs.read (dataPath row) = some (.jsonData u.to_json) := by
  unfold processRow at hok
  rw [hhref] at hok
  dsimp only at hok
  split at hok
  · injection hok with h'
    rw [← h'] at hunit
    exact absurd hunit (by simp)
  · split at hok
    next e heq2 => exact Except.noConfusion hok
    next unit0 heq2 =>
      have huid0 : unit0.uid = detailUid (web (urljoin BASE_URL href)) :=
        make_uid _ _ _ heq2
      rcases hicon : row.iconSrc with _ | src <;> rw [hicon] at hok <;>
        dsimp only at hok <;>
        injection hok with h' <;> rw [← h'] at hunit ⊢
      · have h5 : some unit0 = some u := hunit
        injection h5 with h6
        subst h6
        refine ⟨huid0, ?_⟩
        simp only [dataPath]
        rw [read_assets_fold, FS.read_mkdir]
        exact FS.read_write_self _ _ _
      · have h5 : some { unit0 with icon := some src } = some u := hunit
        injection h5 with h6
        subst h6
        refine ⟨huid0, ?_⟩
        simp only [dataPath]
        rw [read_assets_fold, FS.read_mkdir]
        exact FS.read_write_self _ _ _

/-- Witness for `C6_amended` on the divergent row: the persisted uid is
the detail-page one. -/
theorem C6_witness :
    uC6.uid = detailUid docC6 ∧
    rC6.fs.read (dataPath rowC6) = some (.jsonData uC6.to_json) :=
  C6_amended (fun _ => docC6) fs0 rowC6 rC6 uC6 "bf123.php" rfl rfl rfl

/-- A write makes its own path exist. -/
theorem FS.hasFile_write_self (fs : FS) (p : String) (d : FileData) :
    (fs.write p d).hasFile p = true := by
  simp [FS.write, FS.hasFile]

/-- A write never removes an existing file. -/
theorem FS.hasFile_write_mono (fs : FS) (p q : String) (d : FileData)
    (h : fs.hasFile q = true) : (fs.write p d).hasFile q = true := by
  simp [FS.write, FS.hasFile] at h ⊢
  exact Or.inr h

/-- Creating a directory changes no file existence. -/
theorem FS.hasFile_mkdir (fs : FS) (d q : String) :
    (fs.mkdir d).hasFile q = fs.hasFile q := by
  unfold FS.mkdir
  split <;> rfl

/-- A write changes no directory. -/
theorem FS.dirs_write (fs : FS) (p : String) (d : FileData) :
    (fs.write p d).dirs = fs.dirs := rfl

/-- Creating a directory keeps every existing directory. -/
theorem FS.mem_dirs_mkdir (fs : FS) (d q : String) (h : q ∈ fs.dirs) :
    q ∈ (fs.mkdir d).dirs := by
  unfold FS.mkdir
  split
  · exact h
  · exact List.mem_cons_of_mem _ h

/-- After creating directory `d`, it exists. -/
theorem FS.self_mem_mkdir (fs : FS) (d : String) : d ∈ (fs.mkdir d).dirs := by
  unfold FS.mkdir
  split
  next h => exact List.mem_of_elem_eq_true h
  next h => exact List.mem_cons_self _ _

/-- Creating an existing directory is a no-op, not an error. -/
theorem FS.mkdir_of_mem (fs : FS) (d : String) (h : d ∈ fs.dirs) :
    fs.mkdir d = fs := by
  unfold FS.mkdir
  rw [if_pos]
  exact List.elem_eq_true_of_mem h

/-- The asset-download loop never removes a file. -/
theorem hasFile_assets_fold (folder : String) (urls : List String) (fs : FS)
    (q : String) (h : fs.hasFile q = true) :
    (urls.foldl
        (fun a url =>
          a.write (folder ++ "/assets/" ++ pathName url) (.assetData url))
        fs).hasFile q = true := by
  induction urls generalizing fs with
  | nil => exact h
  | cons x xs ih =>
    rw [List.foldl_cons]
    exact ih _ (FS.hasFile_write_mono _ _ _ _ h)

/-- The asset-download loop creates no directory. -/
theorem dirs_assets_fold (folder : String) (urls : List String) (fs : FS) :
    (urls.foldl
        (fun a url =>
          a.write (folder ++ "/assets/" ++ pathName url) (.assetData url))
        fs).dirs = fs.dirs := by
  induction urls generalizing fs with
  | nil => rfl
  | cons x xs ih =>
    rw [List.foldl_cons, ih, FS.dirs_write]

/-- Directory membership survives the asset-download loop. -/
theorem mem_dirs_assets_fold (folder : String) (urls : List String) (fs : FS)
    (q : String) (h : q ∈ fs.dirs) :
    q ∈ (urls.foldl
        (fun a url =>
          a.write (folder ++ "/assets/" ++ pathName url) (.assetData url))
        fs).dirs := by
  rw [dirs_assets_fold]
  exact h

/-- One loop iteration never removes a file. -/
theorem processRow_hasFile_mono (web : String → DetailDoc) (fs : FS)
    (row : ListingRow) (r : RowResult) (q : String)
    (hok : processRow web fs row = .ok r) (h : fs.hasFile q = true) :
    r.fs.hasFile q = true := by
  unfold processRow at hok
  rcases hh : row.href with _ | href <;> rw [hh] at hok <;> dsimp only at hok
  · split at hok
    · injection hok with h'
      rw [← h', FS.hasFile_mkdir]
      exact h
    · exact Except.noConfusion hok
  · split at hok
    · injection hok with h'
      rw [← h', FS.hasFile_mkdir]
      exact h
    · split at hok
      · exact Except.noConfusion hok
      · rcases hi : row.iconSrc with _ | src <;> rw [hi] at hok <;>
          dsimp only at hok <;> injection hok with h' <;> rw [← h'] <;>
          (refine hasFile_assets_fold _ _ _ _ ?_
           rw [FS.hasFile_mkdir]
           refine FS.hasFile_write_mono _ _ _ _ ?_
           rw [FS.hasFile_mkdir]
           exact h)

/-- One loop iteration never removes a directory. -/
theorem processRow_dirs_mono (web : String → DetailDoc) (fs : FS)
    (row : ListingRow) (r : RowResult) (q : String)
    (hok : processRow web fs row = .ok r) (h : q ∈ fs.dirs) :
    q ∈ r.fs.dirs := by
  unfold processRow at hok
  rcases hh : row.href with _ | href <;> rw [hh] at hok <;> dsimp only at hok
  · split at hok
    · injection hok with h'
      rw [← h']
      exact FS.mem_dirs_mkdir _ _ _ h
    · exact Except.noConfusion hok
  · split at hok
    · injection hok with h'
      rw [← h']
      exact FS.mem_dirs_mkdir _ _ _ h
    · split at hok
      · exact Except.noConfusion hok
      · rcases hi : row.iconSrc with _ | src <;> rw [hi] at hok <;>
          dsimp only at hok <;> injection hok with h' <;> rw [← h'] <;>
          exact mem_dirs_assets_fold _ _ _ _
            (FS.mem_dirs_mkdir _ _ _ (FS.mem_dirs_mkdir _ _ _ h))

/-- After a successful iteration the row has its record file: either it
already existed (skip) or it was just written. -/
theorem processRow_dataFile (web : String → DetailDoc) (fs : FS)
    (row : ListingRow) (r : RowResult)
    (hok : processRow web fs row = .ok r) :
    r.fs.hasFile (dataPath row) = true := by
  unfold processRow at hok
  rcases hh : row.href with _ | href <;> rw [hh] at hok <;> dsimp only at hok
  · split at hok
    next hskip =>
      injection hok with h'
      rw [← h']
      exact hskip
    next => exact Except.noConfusion hok
  · split at hok
    next hskip =>
      injection hok with h'
      rw [← h']
      exact hskip
    next =>
      split at hok
      · exact Except.noConfusion hok
      · rcases hi : row.iconSrc with _ | src <;> rw [hi] at hok <;>
          dsimp only at hok <;> injection hok with h' <;> rw [← h'] <;>
          (simp only [dataPath]
           refine hasFile_assets_fold _ _ _ _ ?_
           rw [FS.hasFile_mkdir]
           exact FS.hasFile_write_self _ _ _)

/-- Every successful iteration leaves the row folder in place: the
directory is created before the skip check runs. -/
theorem processRow_folder (web : String → DetailDoc) (fs : FS)
    (row : ListingRow) (r : RowResult)
    (hok : processRow web fs row = .ok r) :
    unitFolder row ∈ r.fs.dirs := by
  unfold processRow at hok
  rcases hh : row.href with _ | href <;> rw [hh] at hok <;> dsimp only at hok
  · split at hok
    · injection hok with h'
      rw [← h']
      exact FS.self_mem_mkdir _ _
    · exact Except.noConfusion hok
  · split at hok
    · injection hok with h'
      rw [← h']
      exact FS.self_mem_mkdir _ _
    · split at hok
      · exact Except.noConfusion hok
      · rcases hi : row.iconSrc with _ | src <;> rw [hi] at hok <;>
          dsimp only at hok <;> injection hok with h' <;> rw [← h'] <;>
          exact mem_dirs_assets_fold _ _ _ _
            (FS.mem_dirs_mkdir _ _ _ (FS.self_mem_mkdir fs (unitFolder row)))

/-- When the folder and the record file both exist, the iteration skips:
no request, no record, no filesystem change. -/
theorem processRow_skip (web : String → DetailDoc) (fs : FS)
    (row : ListingRow) (hdir : unitFolder row ∈ fs.dirs)
    (hfile : fs.hasFile (dataPath row) = true) :
    processRow web fs row = .ok ⟨fs, [], none⟩ := by
  unfold processRow
  dsimp only
  rw [FS.mkdir_of_mem _ _ hdir, if_pos]
  exact hfile

/-- The loop over the remaining rows never removes files or
directories. -/
theorem runRows_mono (web : String → DetailDoc) (rows : List ListingRow) :
    ∀ acc out, runRows web rows acc = .ok out →
      (∀ q, acc.1.hasFile q = true → out.1.hasFile q = true) ∧
      (∀ q, q ∈ acc.1.dirs → q ∈ out.1.dirs) := by
  induction rows with
  | nil =>
    intro acc out h
    injection h with h'
    subst h'
    exact ⟨fun q hq => hq, fun q hq => hq⟩
  | cons row rest ih =>
    intro acc out h
    unfold runRows at h
    rcases hp : processRow web acc.1 row with e | r <;> rw [hp] at h
    · exact Except.noConfusion h
    · have := ih (r.fs, acc.2 ++ r.reqs) out h
      exact ⟨fun q hq => this.1 q (processRow_hasFile_mono _ _ _ _ _ hp hq),
             fun q hq => this.2 q (processRow_dirs_mono _ _ _ _ _ hp hq)⟩

/-- After a completed traversal, every row has its record file and its
folder. -/
theorem runRows_covers (web : String → DetailDoc) (rows : List ListingRow) :
    ∀ acc out, runRows web rows acc = .ok out →
      ∀ row, row ∈ rows →
        out.1.hasFile (dataPath row) = true ∧ unitFolder row ∈ out.1.dirs := by
  induction rows with
  | nil =>
    intro acc out h row hrow
    exact absurd hrow (List.not_mem_nil row)
  | cons row0 rest ih =>
    intro acc out h row hrow
    unfold runRows at h
    rcases hp : processRow web acc.1 row0 with e | r <;> rw [hp] at h
    · exact Except.noConfusion h
    · rcases List.mem_cons.mp hrow with heq | hmem
      · subst heq
        have hmono := runRows_mono web rest (r.fs, acc.2 ++ r.reqs) out h
        exact ⟨hmono.1 _ (processRow_dataFile _ _ _ _ hp),
               hmono.2 _ (processRow_folder _ _ _ _ hp)⟩
      · exact ih (r.fs, acc.2 ++ r.reqs) out h row hmem

/-- A traversal in which every row already has its record file and folder
skips every row: no filesystem change and no request beyond the
accumulator. -/
theorem runRows_all_skip (web : String → DetailDoc) (rows : List ListingRow) :
    ∀ fs reqs,
      (∀ row, row ∈ rows →
        fs.hasFile (dataPath row) = true ∧ unitFolder row ∈ fs.dirs) →
      runRows web rows (fs, reqs) = .ok (fs, reqs) := by
  induction rows with
  | nil => intro fs reqs _; rfl
  | cons row rest ih =>
    intro fs reqs hall
    unfold runRows
    have h0 := hall row (List.mem_cons_self _ _)
    rw [processRow_skip web fs row h0.2 h0.1]
    dsimp only
    rw [List.append_nil]
    exact ih fs reqs (fun r hr => hall r (List.mem_cons_of_mem _ hr))

/-- Claim C7: running the pipeline a second time against the storage root
left by a completed first run, with the same listing and the same detail
pages, performs no entry-level HTTP request at all — the only request is
the listing fetch itself (`BASE_URL`, issued by every run): every entry
already has its record file, so neither its detail page nor any asset is
fetched, and the filesystem is left exactly as the first run left it. -/
theorem C7_theorem (web : String → DetailDoc) (rows : List ListingRow) (fs fs1 : FS)
    (reqs1 : List String) (h : runMain web rows fs = .ok (fs1, reqs1)) :
    runMain web rows fs1 = .ok (fs1, [BASE_URL]) := by
  unfold runMain at h ⊢
  have hcov := runRows_covers web rows _ _ h
  have hmono := runRows_mono web rows _ _ h
  have hsp : SAVE_PATH ∈ fs1.dirs :=
    hmono.2 SAVE_PATH (FS.self_mem_mkdir fs SAVE_PATH)
  rw [FS.mkdir_of_mem _ _ hsp]
  exact runRows_all_skip web rows fs1 [BASE_URL]
    (fun row hr => hcov row hr)

/-- Claim C10: the per-entry folder is created (if missing) before the
skip check runs, so after a full traversal a folder exists for every
listed entry id, including skipped entries; creating an already-existing
folder is not an error (`FS.mkdir` is total). -/
theorem C10_theorem (web : String → DetailDoc) (rows : List ListingRow) (fs fs' : FS)
    (reqs : List String) (h : runMain web rows fs = .ok (fs', reqs)) :
    ∀ row, row ∈ rows → unitFolder row ∈ fs'.dirs :=
  fun row hr => (runRows_covers web rows _ _ h row hr).2

/-- A first full run over the one-row listing from an empty root. -/
def resC7 : Except PyErr (FS × List String) :=
  runMain (fun _ => docC1) [rowC1] fs0

/-- The filesystem the first run leaves behind. -/
def fsC7 : FS :=
  match resC7 with
  | .ok t => t.1
  | .error _ => fs0

/-- The requests the first run issued. -/
def reqsC7 : List String :=
  match resC7 with
  | .ok t => t.2
  | .error _ => []

/-- Witness for `C7_theorem`: re-running over the root left by the
concrete first run issues only the listing request and changes nothing. -/
theorem C7_witness :
    runMain (fun _ => docC1) [rowC1] fsC7 = .ok (fsC7, [BASE_URL]) :=
  C7_theorem (fun _ => docC1) [rowC1] fs0 fsC7 reqsC7 rfl

/-- A root where the 001 record file already exists (so the row is
skipped). -/
def fsPre : FS := FS.write fs0 (dataPath rowC1) (.assetData "seed")

/-- A run over the pre-seeded root. -/
def resC10 : Except PyErr (FS × List String) :=
  runMain (fun _ => docC1) [rowC1] fsPre

/-- The filesystem after the run over the pre-seeded root. -/
def fsC10 : FS :=
  match resC10 with
  | .ok t => t.1
  | .error _ => fs0

/-- The requests of the run over the pre-seeded root. -/
def reqsC10 : List String :=
  match resC10 with
  | .ok t => t.2
  | .error _ => []

/-- Witness for `C10_theorem`: even for the skipped 001 row, its folder
exists after the traversal. -/
theorem C10_witness : unitFolder rowC1 ∈ fsC10.dirs :=
  C10_theorem (fun _ => docC1) [rowC1] fsPre fsC10 reqsC10 rfl rowC1
    (List.mem_cons_self _ _)

/-- Looking a logger up right after storing it returns it. -/
theorem getLoggerIn_set (reg : LogRegistry) (nm : String) (lg : PyLogger) :
    getLoggerIn (setLoggerIn reg nm lg) nm = lg := by
  simp [getLoggerIn, setLoggerIn, List.find?]

/-- Each `get_logger` call appends one fresh INFO stream handler to the
shared logger: after `n` calls the handler list has grown by `n`
handlers, with no existence check ever performed. -/
theorem callGetLogger_handlers (nm : String) :
    ∀ (n : Nat) (reg : LogRegistry),
      (getLoggerIn (callGetLogger n reg nm) nm).handlers
        = (getLoggerIn reg nm).handlers ++ List.replicate n 20 := by
  intro n
  induction n with
  | zero => intro reg; simp [callGetLogger]
  | succ m ih =>
    intro reg
    unfold callGetLogger
    rw [ih]
    rw [show (get_logger reg nm).1 = setLoggerIn reg nm
          ⟨20, (getLoggerIn reg nm).handlers ++ [20]⟩ from rfl]
    rw [getLoggerIn_set]
    simp [List.replicate_succ]

/-- After at least one `get_logger` call the logger level is INFO. -/
theorem callGetLogger_level (nm : String) :
    ∀ (n : Nat) (reg : LogRegistry),
      (getLoggerIn (callGetLogger (n + 1) reg nm) nm).level = 20 := by
  intro n
  induction n with
  | zero =>
    intro reg
    unfold callGetLogger callGetLogger
    rw [show (get_logger reg nm).1 = setLoggerIn reg nm
          ⟨20, (getLoggerIn reg nm).handlers ++ [20]⟩ from rfl]
    rw [getLoggerIn_set]
  | succ m ih =>
    intro reg
    show (getLoggerIn (callGetLogger (m + 1) (get_logger reg nm).1 nm) nm).level = 20
    exact ih _

/-- All of `k` INFO-level handlers pass a level-`lvl` event when
`lvl` is INFO or higher. -/
theorem filter_replicate_le (k lvl : Nat) (h : 20 ≤ lvl) :
    ((List.replicate k 20).filter (fun x => x ≤ lvl)).length = k := by
  induction k with
  | zero => rfl
  | succ m ih => simp [List.replicate_succ, List.filter_cons, h, ih]

/-- Claim C9: every call of `get_logger` with a given name appends a fresh
stream handler to the shared logger of that name — it never checks for
existing handlers — so after `n` calls the logger holds `n` handlers and a
subsequent log event at or above the logger's INFO threshold is emitted
`n` times, once per accumulated handler. -/
theorem C9_theorem (nm : String) (n lvl : Nat) (hlvl : 20 ≤ lvl) :
    (getLoggerIn (callGetLogger n [] nm) nm).handlers.length = n ∧
    emitCount (getLoggerIn (callGetLogger n [] nm) nm) lvl = n := by
  have hh := callGetLogger_handlers nm n []
  have hempty : getLoggerIn [] nm = ⟨0, []⟩ := rfl
  rw [hempty] at hh
  constructor
  · rw [hh]
    simp
  · cases n with
    | zero =>
      simp [callGetLogger, emitCount, hempty]
    | succ m =>
      have hl := callGetLogger_level nm m []
      unfold emitCount
      rw [hl, if_pos hlvl, hh]
      simp only [List.nil_append]
      exact filter_replicate_le _ _ hlvl

/-- Witness for `C9_theorem`: two calls under one name leave two handlers,
and an INFO event is emitted twice. -/
theorem C9_witness :
    (getLoggerIn (callGetLogger 2 [] "x") "x").handlers.length = 2 ∧
    emitCount (getLoggerIn (callGetLogger 2 [] "x") "x") 20 = 2 :=
  C9_theorem "x" 2 20 (by decide)
